import Mathlib

/-!
Shallow embedding of the authentication / entitlement core of the Diet
SaaS repository (login lockout, session refresh, password change,
forgot-password, rate limiting, plan feature gating, usage limits, JWT
verification wrapper), together with theorems settling the spec claims.

Times are modelled as integer milliseconds since the epoch; calendar
dates additionally carry the year and month fields the code reads via
`Date.getFullYear()` / `Date.getMonth()`.  The bcrypt `compare`
primitive is modelled as string equality with the stored credential
(the spec treats hashing as a black-box one-way function), and fresh
hashes / tokens / clock values are passed in as explicit arguments.
Database rows live in explicit record lists and every handler returns
its outcome together with the updated state.
-/

namespace Diet

/-- A point in time: epoch milliseconds plus the calendar fields read
via `getFullYear()` and `getMonth()`. -/
structure DateT where
  ms : Int
  year : Int
  month : Int
deriving DecidableEq, Repr

/-! ## Entitlement Resolver: `hasFeature` (src/lib/prisma, hasFeature) -/

/-- The static `features` record of `hasFeature`: each subscription plan
mapped to its feature list, exactly as in the source. -/
def planFeatureTable : List (String × List String) :=
  [ ("FREE", ["basic_diet_plans", "patient_management"]),
    ("STARTER",
      ["basic_diet_plans", "patient_management", "ai_diet_plans",
       "appointments", "messaging"]),
    ("PROFESSIONAL",
      ["basic_diet_plans", "patient_management", "ai_diet_plans",
       "appointments", "messaging", "video_consultation", "white_label",
       "custom_domain", "advanced_reports"]),
    ("ENTERPRISE",
      ["basic_diet_plans", "patient_management", "ai_diet_plans",
       "appointments", "messaging", "video_consultation", "white_label",
       "custom_domain", "advanced_reports", "api_access",
       "priority_support", "custom_integrations"]) ]

/-- `hasFeature(plan, feature)`: `features[plan]?.includes(feature) || false`. -/
def hasFeature (plan feature : String) : Bool :=
  match planFeatureTable.lookup plan with
  | some fs => fs.contains feature
  | none => false

/-! ## Rate Limiter (src/lib/utils/api.ts, rateLimit) -/

/-- One entry of the `rateLimitStore` map: `{ count, resetAt }`. -/
structure RateRecord where
  count : Nat
  resetAt : Int
deriving DecidableEq, Repr

/-- The in-process `rateLimitStore` map, keyed by identifier string. -/
abbrev RateStore := String → Option RateRecord

/-- `rateLimit(key, limit, windowMs)` acting on an explicit store and
clock: returns the allowed flag together with the updated store. -/
def rateLimit (store : RateStore) (key : String) (limit : Nat)
    (windowMs : Int) (now : Int) : Bool × RateStore :=
  match store key with
  | none =>
      (true, fun k => if k = key then some ⟨1, now + windowMs⟩ else store k)
  | some record =>
      if record.resetAt < now then
        (true, fun k => if k = key then some ⟨1, now + windowMs⟩ else store k)
      else if limit ≤ record.count then
        (false, store)
      else
        (true,
          fun k =>
            if k = key then some ⟨record.count + 1, record.resetAt⟩
            else store k)

/-- Allowed-call count when `rateLimit` is invoked repeatedly for one
key at the given sequence of clock readings. -/
def rateLimitRun (store : RateStore) (key : String) (limit : Nat)
    (windowMs : Int) : List Int → Nat × RateStore
  | [] => (0, store)
  | t :: ts =>
      let r := rateLimit store key limit windowMs t
      let rest := rateLimitRun r.2 key limit windowMs ts
      ((if r.1 then 1 else 0) + rest.1, rest.2)

/-! ## Data model shared by the auth routes -/

/-- User row (the columns the auth core reads or writes). -/
structure User where
  id : Nat
  email : String
  password : String
  isActive : Bool
  failedLoginAttempts : Nat
  lockedUntil : Option Int
  resetPasswordToken : Option String
  resetPasswordExpires : Option Int
deriving DecidableEq, Repr

/-- Organization columns consulted by login and `isTrialExpired`. -/
structure Org where
  status : String
  trialEndsAt : Option Int
deriving DecidableEq, Repr

/-- Session row (`userSession` table). -/
structure Session where
  id : Nat
  userId : Nat
  refreshToken : String
  accessToken : String
  isValid : Bool
  expiresAt : Int
  lastActivityAt : Int
deriving DecidableEq, Repr

/-- The persistent state the session-touching routes read and write. -/
structure AuthDb where
  users : List User
  sessions : List Session
deriving DecidableEq, Repr

/-- `isTrialExpired`: false unless status is exactly TRIAL with a set
`trialEndsAt` strictly before now. -/
def isTrialExpired (org : Org) (now : Int) : Bool :=
  if org.status ≠ "TRIAL" then false
  else
    match org.trialEndsAt with
    | none => false
    | some t => t < now

/-! ## Login with lockout (POST /api/auth/login) -/

def MAX_LOGIN_ATTEMPTS : Nat := 5

/-- `LOCK_DURATION = 15 * 60 * 1000` (15 minutes, in ms). -/
def LOCK_DURATION : Int := 15 * 60 * 1000

/-- `Math.ceil((lockedUntil - Date.now()) / 60000)` for a lock strictly
in the future (the only case the handler reaches). -/
def minutesLeft (lockedUntil now : Int) : Nat :=
  ((lockedUntil - now).toNat + 59999) / 60000

/-- Outcome of the login handler after rate limiting and validation. -/
inductive LoginOutcome
  | lockedWait (minutes : Nat)
  | lockedNow
  | invalidCredentials (remaining : Nat)
  | inactive
  | orgSuspended
  | orgCancelled
  | trialEnded
  | ok
deriving DecidableEq, Repr

/-- HTTP status the login handler attaches to each outcome. -/
def LoginOutcome.status : LoginOutcome → Nat
  | .lockedWait _ => 403
  | .lockedNow => 403
  | .invalidCredentials _ => 401
  | .inactive => 403
  | .orgSuspended => 403
  | .orgCancelled => 403
  | .trialEnded => 403
  | .ok => 200

/-- The login handler past the lock gate: password check with failure
accounting, activity / organization / trial gates, then the
successful-login reset of the lockout fields (part_003, lines
187-297). -/
def loginUnlocked (u : User) (org : Org) (passwordAttempt : String)
    (now : Int) : LoginOutcome × User :=
  if passwordAttempt ≠ u.password then
    let failedAttempts := u.failedLoginAttempts + 1
    let locked := MAX_LOGIN_ATTEMPTS ≤ failedAttempts
    ((if locked then .lockedNow
      else .invalidCredentials (MAX_LOGIN_ATTEMPTS - failedAttempts)),
     { u with
        failedLoginAttempts := failedAttempts,
        lockedUntil :=
          if locked then some (now + LOCK_DURATION) else u.lockedUntil })
  else if ¬ u.isActive then (.inactive, u)
  else if org.status = "SUSPENDED" then (.orgSuspended, u)
  else if org.status = "CANCELLED" then (.orgCancelled, u)
  else if isTrialExpired org now then (.trialEnded, u)
  else (.ok, { u with failedLoginAttempts := 0, lockedUntil := none })

/-- The login handler's effect on the user row, after the user has been
found by email (POST login body of part_003, lines 176-297): the
`lockedUntil && lockedUntil > new Date()` gate, then `loginUnlocked`. -/
def login (u : User) (org : Org) (passwordAttempt : String) (now : Int) :
    LoginOutcome × User :=
  match u.lockedUntil with
  | some t =>
      if now < t then (.lockedWait (minutesLeft t now), u)
      else loginUnlocked u org passwordAttempt now
  | none => loginUnlocked u org passwordAttempt now

/-- The user row after a sequence of login attempts, each given as a
password and a clock reading. -/
def loginFailTrace (u : User) (org : Org)
    (attempts : List (String × Int)) : User :=
  attempts.foldl (fun v a => (login v org a.1 a.2).2) u

/-! ## Session refresh (POST /api/auth/refresh) -/

/-- Outcome of the refresh handler. -/
inductive RefreshOutcome
  | tokenRequired
  | tokenUnknown
  | sessionInvalid
  | sessionExpired
  | userInactive
  | userMissing
  | ok (accessToken : String)
deriving DecidableEq, Repr

/-- HTTP status of each refresh outcome (`userMissing` models the
`session.user` null dereference caught by the outer try/catch). -/
def RefreshOutcome.status : RefreshOutcome → Nat
  | .tokenRequired => 401
  | .tokenUnknown => 401
  | .sessionInvalid => 401
  | .sessionExpired => 401
  | .userInactive => 401
  | .userMissing => 500
  | .ok _ => 200

/-- Find a session by its unique refresh token. -/
def findSession (db : AuthDb) (token : String) : Option Session :=
  db.sessions.find? (fun s => s.refreshToken = token)

/-- Find a user row by id. -/
def findUser (db : AuthDb) (userId : Nat) : Option User :=
  db.users.find? (fun u => u.id = userId)

/-- The refresh handler (refresh/route.ts, lines 6-108): token from
cookie or body, session lookup, validity / expiry / active-user gates
(marking an expired session invalid), then the new access token and
activity-timestamp update.  `newAccessToken` stands for the token
minted by `generateAccessToken`. -/
def refresh (db : AuthDb) (cookieToken bodyToken : Option String)
    (now : Int) (newAccessToken : String) : RefreshOutcome × AuthDb :=
  match cookieToken.orElse (fun _ => bodyToken) with
  | none => (.tokenRequired, db)
  | some token =>
    match findSession db token with
    | none => (.tokenUnknown, db)
    | some session =>
      if ¬ session.isValid then (.sessionInvalid, db)
      else if session.expiresAt < now then
        (.sessionExpired,
         { db with
            sessions := db.sessions.map (fun s =>
              if s.id = session.id then { s with isValid := false } else s) })
      else
        match findUser db session.userId with
        | none => (.userMissing, db)
        | some user =>
          if ¬ user.isActive then (.userInactive, db)
          else
            (.ok newAccessToken,
             { db with
                sessions := db.sessions.map (fun s =>
                  if s.id = session.id then
                    { s with
                        accessToken := newAccessToken,
                        lastActivityAt := now }
                  else s) })

/-! ## Change password (POST /api/auth/change-password, part_003) -/

/-- Outcome of the change-password handler (after `requireAuth` and
schema validation). -/
inductive ChangePasswordOutcome
  | userNotFound
  | wrongCurrentPassword
  | samePassword
  | ok
deriving DecidableEq, Repr

/-- HTTP status of each change-password outcome. -/
def ChangePasswordOutcome.status : ChangePasswordOutcome → Nat
  | .userNotFound => 404
  | .wrongCurrentPassword => 401
  | .samePassword => 400
  | .ok => 200

/-- The `updateMany` of part_003 lines 77-88: mark invalid every valid
session of the user whose refresh token differs from the requester's
cookie (absent cookie compares against the empty string). -/
def invalidateOtherSessions (sessions : List Session) (userId : Nat)
    (currentRefreshToken : Option String) : List Session :=
  sessions.map (fun s =>
    if s.userId = userId ∧ s.isValid ∧
        s.refreshToken ≠ currentRefreshToken.getD "" then
      { s with isValid := false }
    else s)

/-- The change-password handler body (part_003, lines 20-124): load the
user, verify the current password, reject an unchanged password, store
the new hash, and invalidate every other session.  `newHash` stands
for `hash(newPassword, 12)`. -/
def changePassword (db : AuthDb) (userId : Nat)
    (currentPassword newPassword : String)
    (cookieRefreshToken : Option String) (newHash : String) :
    ChangePasswordOutcome × AuthDb :=
  match findUser db userId with
  | none => (.userNotFound, db)
  | some userDetails =>
    if currentPassword ≠ userDetails.password then
      (.wrongCurrentPassword, db)
    else if currentPassword = newPassword then (.samePassword, db)
    else
      (.ok,
       { db with
          users := db.users.map (fun u =>
            if u.id = userId then { u with password := newHash } else u),
          sessions :=
            invalidateOtherSessions db.sessions userId cookieRefreshToken })

/-! ## Forgot password (POST /api/auth/forgot-password) -/

/-- A `successResponse` body: `{ success: true, data: { message } }`. -/
structure ForgotPasswordResponse where
  success : Bool
  message : String
deriving DecidableEq, Repr

/-- Find a user row by email (`findUnique` on the unique email column). -/
def findUserByEmail (db : AuthDb) (email : String) : Option User :=
  db.users.find? (fun u => u.email = email)

/-- The forgot-password handler body after rate limiting and validation
(forgot-password/route.ts, lines 22-88): missing or inactive user,
internal failure, and the real reset-token write all return the same
generic success body.  `resetToken` stands for `nanoid(32)` and
`internalFailure` for any store error caught at line 80. -/
def forgotPassword (db : AuthDb) (email : String) (now : Int)
    (resetToken : String) (internalFailure : Bool) :
    ForgotPasswordResponse × AuthDb :=
  match findUserByEmail db email with
  | none =>
      (⟨true, "Eğer bu email adresi kayıtlıysa, şifre sıfırlama linki gönderildi."⟩,
       db)
  | some user =>
    if ¬ user.isActive then
      (⟨true, "Eğer bu email adresi kayıtlıysa, şifre sıfırlama linki gönderildi."⟩,
       db)
    else if internalFailure then
      (⟨true, "Eğer bu email adresi kayıtlıysa, şifre sıfırlama linki gönderildi."⟩,
       db)
    else
      (⟨true, "Eğer bu email adresi kayıtlıysa, şifre sıfırlama linki gönderildi."⟩,
       { db with
          users := db.users.map (fun u =>
            if u.id = user.id then
              { u with
                  resetPasswordToken := some resetToken,
                  resetPasswordExpires := some (now + 60 * 60 * 1000) }
            else u) })

/-! ## Usage limits (src/lib/prisma checkUsageLimit / incrementUsage,
src/lib/utils/api.ts checkAndIncrementUsage) -/

/-- The four counted resource types. -/
inductive UsageType
  | users
  | patients
  | storage
  | aiQueries
deriving DecidableEq, Repr

/-- Organization usage columns selected by `checkUsageLimit`. -/
structure OrgUsage where
  maxUsers : Int
  maxPatients : Int
  maxStorage : Int
  maxAiQueries : Int
  currentUsers : Int
  currentPatients : Int
  currentStorage : Int
  currentAiQueries : Int
  aiQueriesResetAt : DateT
deriving DecidableEq, Repr

/-- The `max<Type>` column for a usage type. -/
def OrgUsage.maxFor (org : OrgUsage) : UsageType → Int
  | .users => org.maxUsers
  | .patients => org.maxPatients
  | .storage => org.maxStorage
  | .aiQueries => org.maxAiQueries

/-- The `current<Type>` column for a usage type. -/
def OrgUsage.currentFor (org : OrgUsage) : UsageType → Int
  | .users => org.currentUsers
  | .patients => org.currentPatients
  | .storage => org.currentStorage
  | .aiQueries => org.currentAiQueries

/-- `(now.getFullYear() - resetDate.getFullYear()) * 12 +
(now.getMonth() - resetDate.getMonth())`. -/
def monthDiff (now resetDate : DateT) : Int :=
  (now.year - resetDate.year) * 12 + (now.month - resetDate.month)

/-- Result record of `checkUsageLimit`. -/
structure UsageResult where
  exceeded : Bool
  current : Int
  max : Int
deriving DecidableEq, Repr

/-- `checkUsageLimit(organizationId, type)` on the organization row:
the aiQueries monthly reset (early return, counter not re-read), then
the generic `current >= max` comparison. -/
def checkUsageLimit (org : OrgUsage) (ty : UsageType) (now : DateT) :
    UsageResult × OrgUsage :=
  if ty = UsageType.aiQueries ∧ 1 ≤ monthDiff now org.aiQueriesResetAt then
    (⟨false, 0, org.maxAiQueries⟩,
     { org with currentAiQueries := 0, aiQueriesResetAt := now })
  else
    (⟨org.maxFor ty ≤ org.currentFor ty, org.currentFor ty, org.maxFor ty⟩,
     org)

/-- `incrementUsage(organizationId, type, amount)`: unconditional
counter increment. -/
def incrementUsage (org : OrgUsage) (ty : UsageType) (amount : Int) :
    OrgUsage :=
  match ty with
  | .users => { org with currentUsers := org.currentUsers + amount }
  | .patients => { org with currentPatients := org.currentPatients + amount }
  | .storage => { org with currentStorage := org.currentStorage + amount }
  | .aiQueries =>
      { org with currentAiQueries := org.currentAiQueries + amount }

/-- `checkAndIncrementUsage` (api.ts lines 212-230): check, fail 403
when exceeded, otherwise increment by `amount`.  `none` is the
success (pass-through) return, `some 403` the Forbidden error. -/
def checkAndIncrementUsage (org : OrgUsage) (ty : UsageType)
    (amount : Int) (now : DateT) : Option Nat × OrgUsage :=
  let checked := checkUsageLimit org ty now
  if checked.1.exceeded then (some 403, checked.2)
  else (none, incrementUsage checked.2 ty amount)

/-! ## JWT verification wrapper (src/lib/utils/jwt.ts) -/

/-- The claim payload carried by an access token. -/
structure TokenPayload where
  userId : String
  email : String
  role : String
  organizationId : String
deriving DecidableEq, Repr

/-- A token string as the external `jsonwebtoken.verify` sees it:
either structurally malformed, or a well-formed envelope carrying a
payload, an expiry, and a signature value. -/
inductive Jwt
  | malformed (raw : String)
  | wellFormed (payload : TokenPayload) (exp : Int) (sig : Nat)
deriving DecidableEq, Repr

/-- Model of the signing MAC over payload and expiry under a secret. -/
def jwtSig (secret : Nat) (payload : TokenPayload) (exp : Int) : Nat :=
  secret + (payload.userId.length + payload.email.length +
    payload.role.length + payload.organizationId.length) * 31 +
    exp.natAbs * 7

/-- Failure modes of the external `verify`. -/
inductive JwtError
  | malformedToken
  | badSignature
  | expired
deriving DecidableEq, Repr

/-- Modelled from the spec: the external `jsonwebtoken.verify(token,
JWT_SECRET)` (not part of the repository), which "fails when signature
invalid, token malformed, or expired" by throwing; a thrown error is an
`Except.error`. -/
def jwtVerify (secret : Nat) (now : Int) : Jwt → Except JwtError TokenPayload
  | .malformed _ => .error .malformedToken
  | .wellFormed payload exp sig =>
      if sig ≠ jwtSig secret payload exp then .error .badSignature
      else if exp < now then .error .expired
      else .ok payload

/-- `verifyAccessToken` (jwt.ts lines 34-41): the try/catch wrapper
that converts every `verify` failure into `null`. -/
def verifyAccessToken (secret : Nat) (now : Int) (token : Jwt) :
    Option TokenPayload :=
  match jwtVerify secret now token with
  | .ok decoded => some decoded
  | .error _ => none

end Diet

namespace Diet

/-! ## Theorems -/

/-- Every FREE feature is a STARTER feature. -/
theorem hasFeature_mono_FS (f : String) (h : hasFeature "FREE" f = true) :
    hasFeature "STARTER" f = true := by
  have h2 : List.elem f ["basic_diet_plans", "patient_management"] = true := h
  have hm := List.mem_of_elem_eq_true h2
  simp only [List.mem_cons, List.not_mem_nil, or_false] at hm
  rcases hm with rfl | rfl <;> decide

/-- Every STARTER feature is a PROFESSIONAL feature. -/
theorem hasFeature_mono_SP (f : String)
    (h : hasFeature "STARTER" f = true) :
    hasFeature "PROFESSIONAL" f = true := by
  have h2 : List.elem f
      ["basic_diet_plans", "patient_management", "ai_diet_plans",
       "appointments", "messaging"] = true := h
  have hm := List.mem_of_elem_eq_true h2
  simp only [List.mem_cons, List.not_mem_nil, or_false] at hm
  rcases hm with rfl | rfl | rfl | rfl | rfl <;> decide

/-- Every PROFESSIONAL feature is an ENTERPRISE feature. -/
theorem hasFeature_mono_PE (f : String)
    (h : hasFeature "PROFESSIONAL" f = true) :
    hasFeature "ENTERPRISE" f = true := by
  have h2 : List.elem f
      ["basic_diet_plans", "patient_management", "ai_diet_plans",
       "appointments", "messaging", "video_consultation", "white_label",
       "custom_domain", "advanced_reports"] = true := h
  have hm := List.mem_of_elem_eq_true h2
  simp only [List.mem_cons, List.not_mem_nil, or_false] at hm
  rcases hm with rfl | rfl | rfl | rfl | rfl | rfl | rfl | rfl | rfl <;>
    decide

/-- A plan outside the four known ones has no features. -/
theorem hasFeature_unknown_plan (p f : String) (h1 : p ≠ "FREE")
    (h2 : p ≠ "STARTER") (h3 : p ≠ "PROFESSIONAL")
    (h4 : p ≠ "ENTERPRISE") : hasFeature p f = false := by
  have b1 : (p == "FREE") = false := beq_eq_false_iff_ne.mpr h1
  have b2 : (p == "STARTER") = false := beq_eq_false_iff_ne.mpr h2
  have b3 : (p == "PROFESSIONAL") = false := beq_eq_false_iff_ne.mpr h3
  have b4 : (p == "ENTERPRISE") = false := beq_eq_false_iff_ne.mpr h4
  simp [hasFeature, planFeatureTable, List.lookup, b1, b2, b3, b4]

/-- Claim C5: `hasFeature` is false for FREE/white_label, true for
ENTERPRISE/white_label, monotone along FREE < STARTER < PROFESSIONAL <
ENTERPRISE, and false (without failing) on every unknown plan and on
every feature name outside all the plans' feature lists. -/
theorem hasFeature_spec :
    hasFeature "FREE" "white_label" = false ∧
    hasFeature "ENTERPRISE" "white_label" = true ∧
    (∀ f, hasFeature "FREE" f = true → hasFeature "STARTER" f = true) ∧
    (∀ f, hasFeature "STARTER" f = true → hasFeature "PROFESSIONAL" f = true) ∧
    (∀ f, hasFeature "PROFESSIONAL" f = true → hasFeature "ENTERPRISE" f = true) ∧
    (∀ p f, p ≠ "FREE" → p ≠ "STARTER" → p ≠ "PROFESSIONAL" →
      p ≠ "ENTERPRISE" → hasFeature p f = false) ∧
    (∀ p f, f ∉
        ["basic_diet_plans", "patient_management", "ai_diet_plans",
         "appointments", "messaging", "video_consultation", "white_label",
         "custom_domain", "advanced_reports", "api_access",
         "priority_support", "custom_integrations"] →
      hasFeature p f = false) := by
  refine ⟨rfl, rfl, hasFeature_mono_FS, hasFeature_mono_SP,
    hasFeature_mono_PE, hasFeature_unknown_plan, ?_⟩
  intro p f hf
  have hent : hasFeature "ENTERPRISE" f = false := by
    cases he : hasFeature "ENTERPRISE" f with
    | false => rfl
    | true =>
        have he2 : List.elem f
            ["basic_diet_plans", "patient_management", "ai_diet_plans",
             "appointments", "messaging", "video_consultation", "white_label",
             "custom_domain", "advanced_reports", "api_access",
             "priority_support", "custom_integrations"] = true := he
        exact absurd (List.mem_of_elem_eq_true he2) hf
  by_cases h1 : p = "FREE"
  · subst h1
    cases hfree : hasFeature "FREE" f with
    | false => rfl
    | true =>
        have := hasFeature_mono_PE f (hasFeature_mono_SP f
          (hasFeature_mono_FS f hfree))
        rw [this] at hent
        exact Bool.noConfusion hent
  by_cases h2 : p = "STARTER"
  · subst h2
    cases hst : hasFeature "STARTER" f with
    | false => rfl
    | true =>
        have := hasFeature_mono_PE f (hasFeature_mono_SP f hst)
        rw [this] at hent
        exact Bool.noConfusion hent
  by_cases h3 : p = "PROFESSIONAL"
  · subst h3
    cases hpr : hasFeature "PROFESSIONAL" f with
    | false => rfl
    | true =>
        have := hasFeature_mono_PE f hpr
        rw [this] at hent
        exact Bool.noConfusion hent
  by_cases h4 : p = "ENTERPRISE"
  · subst h4
    exact hent
  exact hasFeature_unknown_plan p f h1 h2 h3 h4

/-- Witness for C5: the monotonicity, unknown-plan and unknown-feature
clauses at concrete inputs. -/
theorem hasFeature_spec_witness :
    hasFeature "STARTER" "patient_management" = true ∧
    hasFeature "GOLD" "white_label" = false ∧
    hasFeature "PROFESSIONAL" "teleportation" = false := by
  refine ⟨hasFeature_spec.2.2.1 "patient_management" (by decide),
    hasFeature_spec.2.2.2.2.2.1 "GOLD" "white_label" ?_ ?_ ?_ ?_,
    hasFeature_spec.2.2.2.2.2.2 "PROFESSIONAL" "teleportation"
      (by decide)⟩ <;> decide

/-! ### Rate limiter lemmas (C9) -/

/-- A still-open window with the count at the limit: rejected, store
untouched. -/
theorem rateLimit_reject (store : RateStore) (key : String) (limit : Nat)
    (windowMs now : Int) (c : Nat) (R : Int)
    (h : store key = some ⟨c, R⟩) (hR : ¬ R < now) (hc : limit ≤ c) :
    rateLimit store key limit windowMs now = (false, store) := by
  simp [rateLimit, h, hR, hc]

/-- A still-open window with the count below the limit: allowed, count
incremented in place. -/
theorem rateLimit_increment (store : RateStore) (key : String) (limit : Nat)
    (windowMs now : Int) (c : Nat) (R : Int)
    (h : store key = some ⟨c, R⟩) (hR : ¬ R < now) (hc : c < limit) :
    rateLimit store key limit windowMs now =
      (true, fun k => if k = key then some ⟨c + 1, R⟩ else store k) := by
  simp [rateLimit, h, hR, Nat.not_le.mpr hc]

/-- No record yet for the key: allowed, count started at 1 with the
reset deadline a window ahead. -/
theorem rateLimit_fresh (store : RateStore) (key : String) (limit : Nat)
    (windowMs now : Int) (h : store key = none) :
    rateLimit store key limit windowMs now =
      (true, fun k =>
        if k = key then some ⟨1, now + windowMs⟩ else store k) := by
  simp [rateLimit, h]

/-- An elapsed window: allowed, record reinitialized. -/
theorem rateLimit_elapsed (store : RateStore) (key : String) (limit : Nat)
    (windowMs now : Int) (c : Nat) (R : Int)
    (h : store key = some ⟨c, R⟩) (hR : R < now) :
    rateLimit store key limit windowMs now =
      (true, fun k =>
        if k = key then some ⟨1, now + windowMs⟩ else store k) := by
  simp [rateLimit, h, hR]

/-- While a window with deadline `R` stays open, the number of allowed
calls plus the clamped starting count never exceeds the limit. -/
theorem rateLimitRun_open_bound (key : String) (limit : Nat)
    (windowMs R : Int) (ts : List Int) :
    ∀ (store : RateStore) (c : Nat), store key = some ⟨c, R⟩ →
      (∀ t ∈ ts, t ≤ R) →
      (rateLimitRun store key limit windowMs ts).1 + min c limit ≤ limit := by
  induction ts with
  | nil =>
      intro store c h ht
      simp only [rateLimitRun, Nat.zero_add]
      exact Nat.min_le_right c limit
  | cons t ts ih =>
      intro store c h ht
      have hR : ¬ R < t := not_lt.mpr (ht t (List.mem_cons_self t ts))
      have ht' : ∀ x ∈ ts, x ≤ R := fun x hx => ht x (List.mem_cons_of_mem t hx)
      by_cases hc : limit ≤ c
      · have hstep := rateLimit_reject store key limit windowMs t c R h hR hc
        have hmin : min c limit = limit := Nat.min_eq_right hc
        have hrun := ih store c h ht'
        rw [hmin] at hrun
        simp [rateLimitRun, hstep, hmin]
        omega
      · have hclt : c < limit := Nat.not_le.mp hc
        have hstep :=
          rateLimit_increment store key limit windowMs t c R h hR hclt
        have hrun :=
          ih (fun k => if k = key then some ⟨c + 1, R⟩ else store k) (c + 1)
            (by simp) ht'
        have hmin1 : min c limit = c := Nat.min_eq_left (Nat.le_of_lt hclt)
        have hmin2 : min (c + 1) limit = c + 1 := Nat.min_eq_left hclt
        rw [hmin2] at hrun
        simp [rateLimitRun, hstep, hmin1]
        omega

/-- Counterexample to C9 as stated: with `limit = 0` the first call in
a fresh window is still allowed, so strictly more than `limit` calls
in the window return allowed. -/
theorem rateLimit_spec_counterexample :
    (rateLimit (fun _ => none) "k" 0 1000 0).1 = true ∧
    ¬ (rateLimitRun (fun _ => none) "k" 0 1000 [0]).1 ≤ 0 := by
  constructor
  · rfl
  · decide

/-- Claim C9 (amended: the at-most-`limit` bound needs `1 ≤ limit`): a
first call in a window initializes the count to 1 and is allowed; in a
still-open window a call is rejected exactly when the count has
reached the limit and otherwise increments the count and is allowed;
and for `1 ≤ limit` a run of calls inside one window has at most
`limit` allowed calls. -/
theorem rateLimit_spec :
    (∀ (store : RateStore) (key : String) (limit : Nat) (windowMs now : Int),
      store key = none →
        (rateLimit store key limit windowMs now).1 = true ∧
        (rateLimit store key limit windowMs now).2 key =
          some ⟨1, now + windowMs⟩) ∧
    (∀ (store : RateStore) (key : String) (limit : Nat) (windowMs now : Int)
      (c : Nat) (R : Int), store key = some ⟨c, R⟩ → R < now →
        (rateLimit store key limit windowMs now).1 = true ∧
        (rateLimit store key limit windowMs now).2 key =
          some ⟨1, now + windowMs⟩) ∧
    (∀ (store : RateStore) (key : String) (limit : Nat) (windowMs now : Int)
      (c : Nat) (R : Int), store key = some ⟨c, R⟩ → ¬ R < now →
        ((rateLimit store key limit windowMs now).1 = false ↔ limit ≤ c) ∧
        (c < limit →
          (rateLimit store key limit windowMs now).2 key = some ⟨c + 1, R⟩)) ∧
    (∀ (store : RateStore) (key : String) (limit : Nat)
      (windowMs t0 : Int) (ts : List Int), store key = none → 1 ≤ limit →
        (∀ t ∈ ts, t ≤ t0 + windowMs) →
        (rateLimitRun store key limit windowMs (t0 :: ts)).1 ≤ limit) := by
  refine ⟨?_, ?_, ?_, ?_⟩
  · intro store key limit windowMs now h
    rw [rateLimit_fresh store key limit windowMs now h]
    simp
  · intro store key limit windowMs now c R h hR
    rw [rateLimit_elapsed store key limit windowMs now c R h hR]
    simp
  · intro store key limit windowMs now c R h hR
    constructor
    · constructor
      · intro hfalse
        by_contra hc
        rw [rateLimit_increment store key limit windowMs now c R h hR
          (Nat.not_le.mp hc)] at hfalse
        simp at hfalse
      · intro hc
        rw [rateLimit_reject store key limit windowMs now c R h hR hc]
    · intro hc
      rw [rateLimit_increment store key limit windowMs now c R h hR hc]
      simp
  · intro store key limit windowMs t0 ts h hlim ht
    have hstep := rateLimit_fresh store key limit windowMs t0 h
    have hbound :=
      rateLimitRun_open_bound key limit windowMs (t0 + windowMs) ts
        (fun k => if k = key then some ⟨1, t0 + windowMs⟩ else store k) 1
        (by simp) ht
    have hmin : min 1 limit = 1 := Nat.min_eq_left hlim
    rw [hmin] at hbound
    simp [rateLimitRun, hstep]
    omega

/-- Witness for C9: three calls out of four allowed at `limit = 3`, and
each clause of the amended claim at concrete inputs. -/
theorem rateLimit_spec_witness :
    (rateLimit (fun _ => none) "login:ip" 3 60000 0).1 = true ∧
    (rateLimit (fun _ => none) "login:ip" 3 60000 0).2 "login:ip" =
      some ⟨1, 60000⟩ ∧
    (rateLimitRun (fun _ => none) "login:ip" 3 60000 (0 :: [1, 2, 3, 4])).1
      ≤ 3 := by
  refine ⟨?_, ?_, ?_⟩
  · exact (rateLimit_spec.1 (fun _ => none) "login:ip" 3 60000 0 rfl).1
  · exact ((rateLimit_spec.1 (fun _ => none) "login:ip" 3 60000 0 rfl).2).trans
      (by norm_num)
  · exact rateLimit_spec.2.2.2 (fun _ => none) "login:ip" 3 60000 0
      [1, 2, 3, 4] rfl (by decide) (by decide)

/-! ### JWT wrapper (C10) -/

/-- Claim C10: `verifyAccessToken` is total — every input yields either
the decoded payload or `null`; malformed, wrongly-signed and expired
tokens all yield `null` (never a thrown error), and an intact unexpired
token decodes to its payload. -/
theorem verifyAccessToken_total :
    (∀ (secret : Nat) (now : Int) (t : Jwt),
      (∃ p, verifyAccessToken secret now t = some p) ∨
        verifyAccessToken secret now t = none) ∧
    (∀ (secret : Nat) (now : Int) (raw : String),
      verifyAccessToken secret now (.malformed raw) = none) ∧
    (∀ (secret : Nat) (now : Int) (p : TokenPayload) (e : Int) (s : Nat),
      s ≠ jwtSig secret p e →
        verifyAccessToken secret now (.wellFormed p e s) = none) ∧
    (∀ (secret : Nat) (now : Int) (p : TokenPayload) (e : Int),
      e < now →
        verifyAccessToken secret now (.wellFormed p e (jwtSig secret p e)) =
          none) ∧
    (∀ (secret : Nat) (now : Int) (p : TokenPayload) (e : Int),
      ¬ e < now →
        verifyAccessToken secret now (.wellFormed p e (jwtSig secret p e)) =
          some p) := by
  refine ⟨?_, ?_, ?_, ?_, ?_⟩
  · intro secret now t
    cases h : verifyAccessToken secret now t with
    | none => exact Or.inr rfl
    | some p => exact Or.inl ⟨p, rfl⟩
  · intro secret now raw
    rfl
  · intro secret now p e s hs
    simp [verifyAccessToken, jwtVerify, hs]
  · intro secret now p e he
    simp [verifyAccessToken, jwtVerify, he]
  · intro secret now p e he
    simp [verifyAccessToken, jwtVerify, he]

/-- Witness for C10: a wrongly-signed and an expired token mapped to
`null`, and an intact one decoded, at concrete values. -/
theorem verifyAccessToken_total_witness :
    verifyAccessToken 7 1000
        (.wellFormed ⟨"u1", "a@b", "DIETITIAN", "o1"⟩ 2000 0) = none ∧
    verifyAccessToken 7 1000
        (.wellFormed ⟨"u1", "a@b", "DIETITIAN", "o1"⟩ 500
          (jwtSig 7 ⟨"u1", "a@b", "DIETITIAN", "o1"⟩ 500)) = none ∧
    verifyAccessToken 7 1000
        (.wellFormed ⟨"u1", "a@b", "DIETITIAN", "o1"⟩ 2000
          (jwtSig 7 ⟨"u1", "a@b", "DIETITIAN", "o1"⟩ 2000)) =
      some ⟨"u1", "a@b", "DIETITIAN", "o1"⟩ := by
  refine ⟨?_, ?_, ?_⟩
  · exact verifyAccessToken_total.2.2.1 7 1000
      ⟨"u1", "a@b", "DIETITIAN", "o1"⟩ 2000 0 (by decide)
  · exact verifyAccessToken_total.2.2.2.1 7 1000
      ⟨"u1", "a@b", "DIETITIAN", "o1"⟩ 500 (by decide)
  · exact verifyAccessToken_total.2.2.2.2 7 1000
      ⟨"u1", "a@b", "DIETITIAN", "o1"⟩ 2000 (by decide)

/-! ### Forgot-password response uniformity (C8) -/

/-- Claim C8: every post-validation run of the forgot-password handler
returns the same generic success body, so two runs differing only in
the stored users (registered or not, active or not) or in an internal
failure produce identical responses. -/
theorem forgotPassword_uniform_response :
    (∀ (db : AuthDb) (email : String) (now : Int) (tok : String)
      (internalFailure : Bool),
      (forgotPassword db email now tok internalFailure).1 =
        ⟨true, "Eğer bu email adresi kayıtlıysa, şifre sıfırlama linki gönderildi."⟩) ∧
    (∀ (db1 db2 : AuthDb) (email : String) (now : Int) (tok : String)
      (f1 f2 : Bool),
      (forgotPassword db1 email now tok f1).1 =
        (forgotPassword db2 email now tok f2).1) := by
  have huni : ∀ (db : AuthDb) (email : String) (now : Int) (tok : String)
      (internalFailure : Bool),
      (forgotPassword db email now tok internalFailure).1 =
        ⟨true, "Eğer bu email adresi kayıtlıysa, şifre sıfırlama linki gönderildi."⟩ := by
    intro db email now tok internalFailure
    unfold forgotPassword
    cases findUserByEmail db email with
    | none => rfl
    | some user =>
        by_cases ha : user.isActive <;> cases internalFailure <;> simp [ha]
  exact ⟨huni, fun db1 db2 email now tok f1 f2 =>
    (huni db1 email now tok f1).trans (huni db2 email now tok f2).symm⟩

/-! ### Usage limits (C6, C4) -/

/-- Incrementing a usage type bumps its own counter by the amount. -/
theorem currentFor_incrementUsage_self (org : OrgUsage) (ty : UsageType)
    (amount : Int) :
    (incrementUsage org ty amount).currentFor ty =
      org.currentFor ty + amount := by
  cases ty <;> rfl

/-- Incrementing a usage type leaves the other counters alone. -/
theorem currentFor_incrementUsage_other (org : OrgUsage) (ty ty2 : UsageType)
    (amount : Int) (h : ty2 ≠ ty) :
    (incrementUsage org ty amount).currentFor ty2 = org.currentFor ty2 := by
  cases ty <;> cases ty2 <;> first | rfl | exact absurd rfl h

/-- Claim C6: when at least one whole calendar month separates
`aiQueriesResetAt` from now, `checkUsageLimit` for aiQueries resets the
counter to 0, advances the reset timestamp to now, and returns
`exceeded = false, current = 0` immediately — independently of the
stored counter value. -/
theorem checkUsageLimit_aiQueries_monthly_reset (org : OrgUsage)
    (now : DateT) (h : 1 ≤ monthDiff now org.aiQueriesResetAt) :
    checkUsageLimit org .aiQueries now =
      (⟨false, 0, org.maxAiQueries⟩,
       { org with currentAiQueries := 0, aiQueriesResetAt := now }) := by
  simp [checkUsageLimit, h]

/-- Witness for C6: a concrete organization one calendar month stale,
with a nonzero stored counter. -/
theorem checkUsageLimit_aiQueries_monthly_reset_witness :
    checkUsageLimit ⟨10, 10, 10, 10, 1, 2, 3, 7, ⟨0, 2025, 8⟩⟩ .aiQueries
        ⟨99, 2025, 9⟩ =
      (⟨false, 0, 10⟩, ⟨10, 10, 10, 10, 1, 2, 3, 0, ⟨99, 2025, 9⟩⟩) :=
  checkUsageLimit_aiQueries_monthly_reset
    ⟨10, 10, 10, 10, 1, 2, 3, 7, ⟨0, 2025, 8⟩⟩ ⟨99, 2025, 9⟩ (by decide)

/-- Counterexample to C4 as stated: with `current = max - 1` and
`amount = 2` the call succeeds and drives the counter to `max + 1`,
above the maximum. -/
theorem checkAndIncrementUsage_counterexample :
    (checkAndIncrementUsage ⟨10, 10, 10, 10, 9, 0, 0, 0, ⟨0, 2025, 0⟩⟩
        .users 2 ⟨0, 2025, 0⟩).1 = none ∧
    ((checkAndIncrementUsage ⟨10, 10, 10, 10, 9, 0, 0, 0, ⟨0, 2025, 0⟩⟩
        .users 2 ⟨0, 2025, 0⟩).2).currentUsers = 11 ∧
    ¬ ((checkAndIncrementUsage ⟨10, 10, 10, 10, 9, 0, 0, 0, ⟨0, 2025, 0⟩⟩
        .users 2 ⟨0, 2025, 0⟩).2).currentUsers ≤ 10 := by
  refine ⟨rfl, rfl, by decide⟩

/-- Claim C4 (amended: outside the aiQueries monthly rollover, and
with the no-overshoot conclusion for `amount = 1`): a call with the
counter at or above the maximum fails 403 leaving the organization
untouched; a call strictly below the maximum succeeds, adds exactly
`amount` to that counter, leaves the other counters alone, and for
`amount = 1` cannot leave the counter above the maximum. -/
theorem checkAndIncrementUsage_spec (org : OrgUsage) (ty : UsageType)
    (amount : Int) (now : DateT)
    (hroll : ¬ (ty = UsageType.aiQueries ∧
      1 ≤ monthDiff now org.aiQueriesResetAt)) :
    (org.maxFor ty ≤ org.currentFor ty →
      checkAndIncrementUsage org ty amount now = (some 403, org)) ∧
    (org.currentFor ty < org.maxFor ty →
      (checkAndIncrementUsage org ty amount now).1 = none ∧
      ((checkAndIncrementUsage org ty amount now).2).currentFor ty =
        org.currentFor ty + amount ∧
      (∀ ty2, ty2 ≠ ty →
        ((checkAndIncrementUsage org ty amount now).2).currentFor ty2 =
          org.currentFor ty2) ∧
      (amount = 1 →
        ((checkAndIncrementUsage org ty amount now).2).currentFor ty ≤
          org.maxFor ty)) := by
  have hcheck : checkUsageLimit org ty now =
      (⟨decide (org.maxFor ty ≤ org.currentFor ty), org.currentFor ty,
        org.maxFor ty⟩, org) := by
    simp [checkUsageLimit, hroll]
  constructor
  · intro hle
    simp [checkAndIncrementUsage, hcheck, hle]
  · intro hlt
    have hnot : ¬ org.maxFor ty ≤ org.currentFor ty := not_le.mpr hlt
    have heq : checkAndIncrementUsage org ty amount now =
        (none, incrementUsage org ty amount) := by
      simp [checkAndIncrementUsage, hcheck, hnot]
    refine ⟨by simp [heq], ?_, ?_, ?_⟩
    · rw [heq]
      exact currentFor_incrementUsage_self org ty amount
    · intro ty2 h2
      rw [heq]
      exact currentFor_incrementUsage_other org ty ty2 amount h2
    · intro h1
      rw [heq, currentFor_incrementUsage_self org ty amount, h1]
      omega

/-- Witness for C4: the reject branch at `current = max` and the
increment branch at `current = max - 1`, `amount = 1`, on concrete
organizations. -/
theorem checkAndIncrementUsage_spec_witness :
    checkAndIncrementUsage ⟨10, 5, 10, 10, 0, 5, 0, 0, ⟨0, 2025, 0⟩⟩
        .patients 1 ⟨0, 2025, 0⟩ =
      (some 403, ⟨10, 5, 10, 10, 0, 5, 0, 0, ⟨0, 2025, 0⟩⟩) ∧
    (checkAndIncrementUsage ⟨10, 5, 10, 10, 0, 4, 0, 0, ⟨0, 2025, 0⟩⟩
        .patients 1 ⟨0, 2025, 0⟩).1 = none ∧
    ((checkAndIncrementUsage ⟨10, 5, 10, 10, 0, 4, 0, 0, ⟨0, 2025, 0⟩⟩
        .patients 1 ⟨0, 2025, 0⟩).2).currentFor .patients ≤ 5 := by
  refine ⟨?_, ?_, ?_⟩
  · exact (checkAndIncrementUsage_spec
      ⟨10, 5, 10, 10, 0, 5, 0, 0, ⟨0, 2025, 0⟩⟩ .patients 1 ⟨0, 2025, 0⟩
      (by decide)).1 (by decide)
  · exact ((checkAndIncrementUsage_spec
      ⟨10, 5, 10, 10, 0, 4, 0, 0, ⟨0, 2025, 0⟩⟩ .patients 1 ⟨0, 2025, 0⟩
      (by decide)).2 (by decide)).1
  · exact ((checkAndIncrementUsage_spec
      ⟨10, 5, 10, 10, 0, 4, 0, 0, ⟨0, 2025, 0⟩⟩ .patients 1 ⟨0, 2025, 0⟩
      (by decide)).2 (by decide)).2.2.2 rfl

/-! ### Session refresh (C3) -/

/-- Looking a token up after the id-keyed invalidation update finds the
same session with `isValid` cleared. -/
theorem findSession_after_invalidate (db : AuthDb) (tok : String)
    (sid : Nat) :
    findSession
        { db with
            sessions := db.sessions.map (fun x =>
              if x.id = sid then { x with isValid := false } else x) } tok =
      (findSession db tok).map (fun x =>
        if x.id = sid then { x with isValid := false } else x) := by
  unfold findSession
  have hp : (fun s => decide (s.refreshToken = tok)) ∘
      (fun x : Session => if x.id = sid then { x with isValid := false } else x)
      = (fun s : Session => decide (s.refreshToken = tok)) := by
    funext x
    by_cases h : x.id = sid <;> simp [Function.comp, h]
  rw [List.find?_map, hp]

/-- Claim C3: refreshing a session whose `expiresAt` has passed fails
with 401 and leaves the session invalid; the repeated call fails at the
`isValid` check and changes nothing, so repetition is idempotent. -/
theorem refresh_expired_session (db : AuthDb) (tok : String) (s : Session)
    (now now2 : Int) (na na2 : String)
    (hfind : findSession db tok = some s) (hexp : s.expiresAt < now) :
    ((refresh db (some tok) none now na).1).status = 401 ∧
    findSession (refresh db (some tok) none now na).2 tok =
      some { s with isValid := false } ∧
    (refresh (refresh db (some tok) none now na).2 (some tok) none now2
        na2).1 = .sessionInvalid ∧
    (refresh (refresh db (some tok) none now na).2 (some tok) none now2
        na2).2 = (refresh db (some tok) none now na).2 := by
  have hsecond : ∀ db2 : AuthDb,
      findSession db2 tok = some { s with isValid := false } →
      refresh db2 (some tok) none now2 na2 = (.sessionInvalid, db2) := by
    intro db2 hf2
    simp [refresh, hf2]
  cases hv : s.isValid with
  | false =>
      have hs : ({ s with isValid := false } : Session) = s := by
        cases s
        simp_all
      have hr1 : refresh db (some tok) none now na = (.sessionInvalid, db) := by
        simp [refresh, hfind, hv]
      rw [hr1]
      have hf2 : findSession db tok = some { s with isValid := false } := by
        rw [hs]; exact hfind
      have hr2 := hsecond db hf2
      rw [hr2]
      exact ⟨rfl, hf2, rfl, rfl⟩
  | true =>
      have hr1 : refresh db (some tok) none now na =
          (.sessionExpired,
           { db with
              sessions := db.sessions.map (fun x =>
                if x.id = s.id then { x with isValid := false } else x) }) := by
        simp [refresh, hfind, hv, hexp]
      rw [hr1]
      have hf2 :
          findSession
              { db with
                  sessions := db.sessions.map (fun x =>
                    if x.id = s.id then { x with isValid := false } else x) }
              tok = some { s with isValid := false } := by
        rw [findSession_after_invalidate db tok s.id, hfind]
        simp
      have hr2 := hsecond _ hf2
      rw [hr2]
      exact ⟨rfl, hf2, rfl, rfl⟩

/-- Witness for C3: a concrete store with one expired valid session. -/
theorem refresh_expired_session_witness :
    ((refresh ⟨[⟨1, "a@b", "pw", true, 0, none, none, none⟩],
        [⟨1, 1, "rt1", "at1", true, 50, 0⟩]⟩ (some "rt1") none 100 "at2").1).status
      = 401 ∧
    findSession (refresh ⟨[⟨1, "a@b", "pw", true, 0, none, none, none⟩],
        [⟨1, 1, "rt1", "at1", true, 50, 0⟩]⟩ (some "rt1") none 100 "at2").2
        "rt1" = some ⟨1, 1, "rt1", "at1", false, 50, 0⟩ ∧
    (refresh (refresh ⟨[⟨1, "a@b", "pw", true, 0, none, none, none⟩],
        [⟨1, 1, "rt1", "at1", true, 50, 0⟩]⟩ (some "rt1") none 100 "at2").2
        (some "rt1") none 200 "at3").1 = .sessionInvalid :=
  have h := refresh_expired_session
    ⟨[⟨1, "a@b", "pw", true, 0, none, none, none⟩],
     [⟨1, 1, "rt1", "at1", true, 50, 0⟩]⟩ "rt1" ⟨1, 1, "rt1", "at1", true, 50, 0⟩
    100 200 "at2" "at3" (by decide) (by decide)
  ⟨h.1, h.2.1, h.2.2.1⟩

/-! ### Change password (C7) -/

/-- Claim C7: a successful change-password marks invalid every valid
session of the requester whose refresh token differs from the current
cookie, keeps the cookie's session untouched (hence valid), and leaves
other users' sessions untouched. -/
theorem changePassword_invalidates_other_sessions (db : AuthDb)
    (userId : Nat) (currentPw newPw c newHash : String) (ud : User)
    (hfind : findUser db userId = some ud) (hpw : currentPw = ud.password)
    (hne : currentPw ≠ newPw) :
    (changePassword db userId currentPw newPw (some c) newHash).1 = .ok ∧
    (∀ s ∈ db.sessions, s.userId = userId → s.isValid = true →
      s.refreshToken ≠ c →
      { s with isValid := false } ∈
        ((changePassword db userId currentPw newPw (some c) newHash).2).sessions) ∧
    (∀ s ∈ db.sessions, s.refreshToken = c →
      s ∈ ((changePassword db userId currentPw newPw (some c) newHash).2).sessions) ∧
    (∀ s ∈ db.sessions, s.userId ≠ userId →
      s ∈ ((changePassword db userId currentPw newPw (some c) newHash).2).sessions) := by
  subst hpw
  have hr : changePassword db userId ud.password newPw (some c) newHash =
      (.ok,
       { db with
          users := db.users.map (fun u =>
            if u.id = userId then { u with password := newHash } else u),
          sessions :=
            invalidateOtherSessions db.sessions userId (some c) }) := by
    simp [changePassword, hfind, hne]
  rw [hr]
  refine ⟨rfl, ?_, ?_, ?_⟩
  · intro s hs h1 h2 h3
    have hcond : (s.userId = userId ∧ s.isValid = true ∧
        s.refreshToken ≠ (some c).getD "") := ⟨h1, h2, h3⟩
    have := List.mem_map_of_mem (fun s : Session =>
      if s.userId = userId ∧ s.isValid ∧
          s.refreshToken ≠ (some c).getD "" then
        { s with isValid := false }
      else s) hs
    simpa [invalidateOtherSessions, h1, h2, h3] using this
  · intro s hs h1
    have := List.mem_map_of_mem (fun s : Session =>
      if s.userId = userId ∧ s.isValid ∧
          s.refreshToken ≠ (some c).getD "" then
        { s with isValid := false }
      else s) hs
    simpa [invalidateOtherSessions, h1] using this
  · intro s hs h1
    have := List.mem_map_of_mem (fun s : Session =>
      if s.userId = userId ∧ s.isValid ∧
          s.refreshToken ≠ (some c).getD "" then
        { s with isValid := false }
      else s) hs
    simpa [invalidateOtherSessions, h1] using this

/-- Witness for C7: a user with three sessions — the cookie's own, a
second valid one, and another user's — after a successful password
change. -/
theorem changePassword_invalidates_other_sessions_witness :
    (changePassword ⟨[⟨1, "a@b", "pw", true, 0, none, none, none⟩],
        [⟨1, 1, "curtok", "a1", true, 500, 0⟩,
         ⟨2, 1, "othertok", "a2", true, 500, 0⟩,
         ⟨3, 2, "thirdtok", "a3", true, 500, 0⟩]⟩
        1 "pw" "npw" (some "curtok") "h2").1 = .ok ∧
    (⟨2, 1, "othertok", "a2", false, 500, 0⟩ : Session) ∈
      ((changePassword ⟨[⟨1, "a@b", "pw", true, 0, none, none, none⟩],
        [⟨1, 1, "curtok", "a1", true, 500, 0⟩,
         ⟨2, 1, "othertok", "a2", true, 500, 0⟩,
         ⟨3, 2, "thirdtok", "a3", true, 500, 0⟩]⟩
        1 "pw" "npw" (some "curtok") "h2").2).sessions ∧
    (⟨1, 1, "curtok", "a1", true, 500, 0⟩ : Session) ∈
      ((changePassword ⟨[⟨1, "a@b", "pw", true, 0, none, none, none⟩],
        [⟨1, 1, "curtok", "a1", true, 500, 0⟩,
         ⟨2, 1, "othertok", "a2", true, 500, 0⟩,
         ⟨3, 2, "thirdtok", "a3", true, 500, 0⟩]⟩
        1 "pw" "npw" (some "curtok") "h2").2).sessions ∧
    (⟨3, 2, "thirdtok", "a3", true, 500, 0⟩ : Session) ∈
      ((changePassword ⟨[⟨1, "a@b", "pw", true, 0, none, none, none⟩],
        [⟨1, 1, "curtok", "a1", true, 500, 0⟩,
         ⟨2, 1, "othertok", "a2", true, 500, 0⟩,
         ⟨3, 2, "thirdtok", "a3", true, 500, 0⟩]⟩
        1 "pw" "npw" (some "curtok") "h2").2).sessions :=
  have h := changePassword_invalidates_other_sessions
    ⟨[⟨1, "a@b", "pw", true, 0, none, none, none⟩],
     [⟨1, 1, "curtok", "a1", true, 500, 0⟩,
      ⟨2, 1, "othertok", "a2", true, 500, 0⟩,
      ⟨3, 2, "thirdtok", "a3", true, 500, 0⟩]⟩
    1 "pw" "npw" "curtok" "h2" ⟨1, "a@b", "pw", true, 0, none, none, none⟩
    (by decide) rfl (by decide)
  ⟨h.1,
   h.2.1 ⟨2, 1, "othertok", "a2", true, 500, 0⟩ (by decide) rfl rfl
     (by decide),
   h.2.2.1 ⟨1, 1, "curtok", "a1", true, 500, 0⟩ (by decide) rfl,
   h.2.2.2 ⟨3, 2, "thirdtok", "a3", true, 500, 0⟩ (by decide) (by decide)⟩

/-! ### Login lockout (C1, C2) -/

/-- While `lockedUntil` is in the future, any attempt is rejected with
the remaining minutes and an untouched user row, whatever the
password. -/
theorem login_locked (u : User) (org : Org) (pw : String) (now t : Int)
    (hl : u.lockedUntil = some t) (hfut : now < t) :
    login u org pw now = (.lockedWait (minutesLeft t now), u) := by
  simp [login, hl, hfut]

/-- A failed attempt below the threshold just increments the counter. -/
theorem login_fail_increment (u : User) (org : Org) (pw : String)
    (now : Int) (hnl : u.lockedUntil = none) (hpw : pw ≠ u.password)
    (hlt : u.failedLoginAttempts + 1 < MAX_LOGIN_ATTEMPTS) :
    login u org pw now =
      (.invalidCredentials
        (MAX_LOGIN_ATTEMPTS - (u.failedLoginAttempts + 1)),
       { u with failedLoginAttempts := u.failedLoginAttempts + 1 }) := by
  have hnle : ¬ MAX_LOGIN_ATTEMPTS ≤ u.failedLoginAttempts + 1 :=
    Nat.not_le.mpr hlt
  simp [login, hnl, loginUnlocked, hpw, hnle]

/-- The failed attempt that reaches the threshold locks the account
for `LOCK_DURATION` from now. -/
theorem login_fail_lock (u : User) (org : Org) (pw : String) (now : Int)
    (hnl : u.lockedUntil = none) (hpw : pw ≠ u.password)
    (hge : MAX_LOGIN_ATTEMPTS ≤ u.failedLoginAttempts + 1) :
    login u org pw now =
      (.lockedNow,
       { u with
          failedLoginAttempts := u.failedLoginAttempts + 1,
          lockedUntil := some (now + LOCK_DURATION) }) := by
  simp [login, hnl, loginUnlocked, hpw, hge]

/-- Claim C1: from a fresh user, four consecutive failed logins leave
the account unlocked, the fifth locks it until `LOCK_DURATION` past the
fifth attempt, and while the lock is in the future every attempt —
whatever its password — is answered 403 with the remaining minutes,
with the user row (hence the failure counter) unchanged. -/
theorem login_lockout_spec (u : User) (org : Org)
    (h0 : u.failedLoginAttempts = 0) (hnl : u.lockedUntil = none)
    (p1 p2 p3 p4 p5 : String) (t1 t2 t3 t4 t5 : Int)
    (hp1 : p1 ≠ u.password) (hp2 : p2 ≠ u.password)
    (hp3 : p3 ≠ u.password) (hp4 : p4 ≠ u.password)
    (hp5 : p5 ≠ u.password) :
    (loginFailTrace u org
        [(p1, t1), (p2, t2), (p3, t3), (p4, t4)]).lockedUntil = none ∧
    loginFailTrace u org
        [(p1, t1), (p2, t2), (p3, t3), (p4, t4), (p5, t5)] =
      { u with
          failedLoginAttempts := MAX_LOGIN_ATTEMPTS,
          lockedUntil := some (t5 + LOCK_DURATION) } ∧
    (∀ pw now, now < t5 + LOCK_DURATION →
      login (loginFailTrace u org
          [(p1, t1), (p2, t2), (p3, t3), (p4, t4), (p5, t5)]) org pw now =
        (.lockedWait (minutesLeft (t5 + LOCK_DURATION) now),
         loginFailTrace u org
           [(p1, t1), (p2, t2), (p3, t3), (p4, t4), (p5, t5)]) ∧
      ((login (loginFailTrace u org
          [(p1, t1), (p2, t2), (p3, t3), (p4, t4), (p5, t5)]) org pw
          now).1).status = 403) := by
  have e1 : (login u org p1 t1).2 = { u with failedLoginAttempts := 1 } := by
    rw [login_fail_increment u org p1 t1 hnl hp1 (by rw [h0]; decide)]
    simp [h0]
  have e2 : (login { u with failedLoginAttempts := 1 } org p2 t2).2 =
      { u with failedLoginAttempts := 2 } := by
    rw [login_fail_increment _ org p2 t2 (by simp [hnl]) (by simpa using hp2)
      (by simp [MAX_LOGIN_ATTEMPTS])]
  have e3 : (login { u with failedLoginAttempts := 2 } org p3 t3).2 =
      { u with failedLoginAttempts := 3 } := by
    rw [login_fail_increment _ org p3 t3 (by simp [hnl]) (by simpa using hp3)
      (by simp [MAX_LOGIN_ATTEMPTS])]
  have e4 : (login { u with failedLoginAttempts := 3 } org p4 t4).2 =
      { u with failedLoginAttempts := 4 } := by
    rw [login_fail_increment _ org p4 t4 (by simp [hnl]) (by simpa using hp4)
      (by simp [MAX_LOGIN_ATTEMPTS])]
  have e5 : (login { u with failedLoginAttempts := 4 } org p5 t5).2 =
      { u with
          failedLoginAttempts := 5,
          lockedUntil := some (t5 + LOCK_DURATION) } := by
    rw [login_fail_lock _ org p5 t5 (by simp [hnl]) (by simpa using hp5)
      (by simp [MAX_LOGIN_ATTEMPTS])]
  have tr4 : loginFailTrace u org [(p1, t1), (p2, t2), (p3, t3), (p4, t4)] =
      { u with failedLoginAttempts := 4 } := by
    simp only [loginFailTrace, List.foldl_cons, List.foldl_nil]
    rw [e1, e2, e3, e4]
  have tr5 : loginFailTrace u org
      [(p1, t1), (p2, t2), (p3, t3), (p4, t4), (p5, t5)] =
      { u with
          failedLoginAttempts := 5,
          lockedUntil := some (t5 + LOCK_DURATION) } := by
    simp only [loginFailTrace, List.foldl_cons, List.foldl_nil]
    rw [e1, e2, e3, e4, e5]
  refine ⟨by rw [tr4]; simp [hnl], by rw [tr5]; rfl, ?_⟩
  intro pw now hfut
  have hlock := login_locked
    { u with
        failedLoginAttempts := 5,
        lockedUntil := some (t5 + LOCK_DURATION) } org pw now
    (t5 + LOCK_DURATION) (by simp) hfut
  rw [tr5, hlock]
  exact ⟨rfl, rfl⟩

/-- Witness for C1: a concrete fresh user locked by five wrong
passwords at times 0..4, then refused with the correct password at
time 10 with 15 minutes left. -/
theorem login_lockout_spec_witness :
    login (loginFailTrace ⟨1, "a@b", "secret", true, 0, none, none, none⟩
        ⟨"ACTIVE", none⟩ [("x", 0), ("x", 1), ("x", 2), ("x", 3), ("x", 4)])
      ⟨"ACTIVE", none⟩ "secret" 10 =
      (.lockedWait 15, ⟨1, "a@b", "secret", true, 5, some 900004, none, none⟩) ∧
    ((login (loginFailTrace ⟨1, "a@b", "secret", true, 0, none, none, none⟩
        ⟨"ACTIVE", none⟩ [("x", 0), ("x", 1), ("x", 2), ("x", 3), ("x", 4)])
      ⟨"ACTIVE", none⟩ "secret" 10).1).status = 403 :=
  have h := login_lockout_spec ⟨1, "a@b", "secret", true, 0, none, none, none⟩
    ⟨"ACTIVE", none⟩ rfl rfl "x" "x" "x" "x" "x" 0 1 2 3 4
    (by decide) (by decide) (by decide) (by decide) (by decide)
  have h2 := h.2.2 "secret" 10 (by decide)
  ⟨h2.1.trans (by decide), h2.2⟩

/-- Counterexample to C2 as stated: a correct-password attempt for an
inactive user does not succeed and does not reset the failure
counter. -/
theorem login_reset_counterexample :
    (login ⟨1, "a@b", "pw", false, 3, none, none, none⟩ ⟨"ACTIVE", none⟩
        "pw" 0).1 ≠ LoginOutcome.ok ∧
    ((login ⟨1, "a@b", "pw", false, 3, none, none, none⟩ ⟨"ACTIVE", none⟩
        "pw" 0).2).failedLoginAttempts = 3 := by
  decide

/-- Claim C2 (amended: the correct-password success and reset is for an
active user in a non-suspended, non-cancelled organization with an
unexpired trial): such a login — previously OPEN or with an
already-elapsed lock — succeeds, zeroes `failedLoginAttempts` and
clears `lockedUntil`; and none of the other embedded auth operations
(refresh, change-password, forgot-password) changes any user's
`failedLoginAttempts` or `lockedUntil`. -/
theorem login_success_resets (u : User) (org : Org) (now : Int)
    (hact : u.isActive = true) (hsus : org.status ≠ "SUSPENDED")
    (hcan : org.status ≠ "CANCELLED") (htr : isTrialExpired org now = false)
    (hlock : ∀ t, u.lockedUntil = some t → t ≤ now) :
    login u org u.password now =
      (.ok, { u with failedLoginAttempts := 0, lockedUntil := none }) ∧
    (∀ (db : AuthDb) (ct bt : Option String) (n2 : Int) (na : String),
      ((refresh db ct bt n2 na).2).users = db.users) ∧
    (∀ (db : AuthDb) (uid : Nat) (cp np : String) (ctok : Option String)
      (nh : String),
      ((changePassword db uid cp np ctok nh).2).users.map
          (fun v => (v.id, v.failedLoginAttempts, v.lockedUntil)) =
        db.users.map
          (fun v => (v.id, v.failedLoginAttempts, v.lockedUntil))) ∧
    (∀ (db : AuthDb) (em : String) (n2 : Int) (tk : String) (fl : Bool),
      ((forgotPassword db em n2 tk fl).2).users.map
          (fun v => (v.id, v.failedLoginAttempts, v.lockedUntil)) =
        db.users.map
          (fun v => (v.id, v.failedLoginAttempts, v.lockedUntil))) := by
  refine ⟨?_, ?_, ?_, ?_⟩
  · have hunlocked : loginUnlocked u org u.password now =
        (.ok, { u with failedLoginAttempts := 0, lockedUntil := none }) := by
      simp [loginUnlocked, hact, hsus, hcan, htr]
    cases hlu : u.lockedUntil with
    | none => simp [login, hlu, hunlocked]
    | some t =>
        have hle : ¬ now < t := not_lt.mpr (hlock t hlu)
        simp [login, hlu, hle, hunlocked]
  · intro db ct bt n2 na
    unfold refresh
    repeat' split
    all_goals rfl
  · intro db uid cp np ctok nh
    unfold changePassword
    split
    · rfl
    · split
      · rfl
      · split
        · rfl
        · dsimp only
          rw [List.map_map]
          have hfun :
              ((fun v : User => (v.id, v.failedLoginAttempts, v.lockedUntil)) ∘
                (fun v : User =>
                  if v.id = uid then { v with password := nh } else v)) =
              (fun v : User =>
                (v.id, v.failedLoginAttempts, v.lockedUntil)) := by
            funext v
            by_cases h : v.id = uid <;> simp [Function.comp, h]
          rw [hfun]
  · intro db em n2 tk fl
    unfold forgotPassword
    split
    · rfl
    next user heq =>
      split
      · rfl
      · split
        · rfl
        · dsimp only
          rw [List.map_map]
          have hfun :
              ((fun v : User => (v.id, v.failedLoginAttempts, v.lockedUntil)) ∘
                (fun v : User =>
                  if v.id = user.id then
                    { v with
                        resetPasswordToken := some tk,
                        resetPasswordExpires := some (n2 + 60 * 60 * 1000) }
                  else v)) =
              (fun v : User =>
                (v.id, v.failedLoginAttempts, v.lockedUntil)) := by
            funext v
            by_cases h : v.id = user.id <;> simp [Function.comp, h]
          rw [hfun]

/-- Witness for C2: a concrete active user with an elapsed lock and a
stale failure count logging in with the correct password, plus the
refresh and change-password frame clauses at a concrete store. -/
theorem login_success_resets_witness :
    login ⟨1, "a@b", "pw", true, 5, some (-5), none, none⟩ ⟨"ACTIVE", none⟩
        "pw" 0 =
      (.ok, ⟨1, "a@b", "pw", true, 0, none, none, none⟩) ∧
    ((refresh ⟨[⟨1, "a@b", "pw", true, 5, some (-5), none, none⟩],
        [⟨1, 1, "rt1", "at1", true, 50, 0⟩]⟩ (some "rt1") none 100
        "at2").2).users =
      [⟨1, "a@b", "pw", true, 5, some (-5), none, none⟩] ∧
    ((changePassword ⟨[⟨1, "a@b", "pw", true, 5, some (-5), none, none⟩],
        [⟨1, 1, "rt1", "at1", true, 50, 0⟩]⟩ 1 "pw" "npw" (some "rt1")
        "h2").2).users.map
        (fun v => (v.id, v.failedLoginAttempts, v.lockedUntil)) =
      [(1, 5, some (-5))] :=
  have h := login_success_resets
    ⟨1, "a@b", "pw", true, 5, some (-5), none, none⟩ ⟨"ACTIVE", none⟩ 0
    rfl (by decide) (by decide) rfl
    (by intro t ht; simp only [Option.some.injEq] at ht; omega)
  ⟨h.1,
   h.2.1 ⟨[⟨1, "a@b", "pw", true, 5, some (-5), none, none⟩],
     [⟨1, 1, "rt1", "at1", true, 50, 0⟩]⟩ (some "rt1") none 100 "at2",
   (h.2.2.1 ⟨[⟨1, "a@b", "pw", true, 5, some (-5), none, none⟩],
     [⟨1, 1, "rt1", "at1", true, 50, 0⟩]⟩ 1 "pw" "npw" (some "rt1")
     "h2").trans (by decide)⟩

end Diet
